import Mathlib

/-!
Verification of the chest-anchored heart animation and tracking pipeline.

Shallow embedding of the repository's core modules:
* `src/utils/config.py`              — configuration constants
* `src/heartrate/hr_parser.py`       — heart-rate sample smoothing and staleness
* `src/heartrate/animation_controller.py` — dual-mode beat animation
* `src/utils/math_utils.py`          — vector/matrix helpers
* `src/pose/chest_tracker.py`        — 2D/3D chest anchor tracking

Python floats are modelled as real numbers (exact arithmetic); integer
division `int(x)` on non-negative quotients is modelled as natural-number
division; wall-clock instants are explicit arguments.
-/

open scoped Classical

/-! ## Configuration constants (src/utils/config.py) -/

/-- Scale factor for heart model (config.py line 42). -/
def Config.HEART_SCALE : ℝ := 0.15

/-- Offset forward from chest in meters (config.py line 43). -/
def Config.HEART_OFFSET_Z : ℝ := 0.05

/-- Scale-change amplitude for the heartbeat animation (config.py line 52). -/
def Config.HEART_BEAT_SCALE_AMPLITUDE : ℝ := 0.3

/-- Smoothing factor for BPM changes (config.py line 53). -/
def Config.ANIMATION_SMOOTHING : ℝ := 0.1

/-! ## Beat Signal Processor (src/heartrate/hr_parser.py) -/

/-- State of `HeartRateParser`: the bounded deque of recent samples (oldest
first), the derived current BPM, and the last-update timestamp. -/
structure HeartRateParser where
  smoothing_window : Nat
  recent_values : List Nat
  current_bpm : Option Nat
  last_update_time : Option ℚ

/-- Fresh parser state, as built by `HeartRateParser.__init__`. -/
def HeartRateParser.init (smoothing_window : Nat) : HeartRateParser :=
  { smoothing_window := smoothing_window
    recent_values := []
    current_bpm := none
    last_update_time := none }

/-- Semantics of `deque(maxlen=m).append(x)`: append on the right, evict
from the left when over capacity. -/
def dequeAppend (maxlen : Nat) (l : List Nat) (x : Nat) : List Nat :=
  let l2 := l ++ [x]
  l2.drop (l2.length - maxlen)

/-- The suffix of `l` of length `min l.length k` — the last `min (N, k)`
elements. -/
def lastWindow (k : Nat) (l : List Nat) : List Nat :=
  l.drop (l.length - k)

/-- Embedding of `HeartRateParser.update` (hr_parser.py lines 23-42).
`int(sum(...) / len(...))` truncates the float mean toward zero; on
non-negative integers that is floor division, i.e. `Nat` division. -/
def HeartRateParser.update (p : HeartRateParser) (heart_rate : Nat) (now : ℚ) :
    HeartRateParser × Nat :=
  let rv := dequeAppend p.smoothing_window p.recent_values heart_rate
  let bpm := if rv.length > 0 then rv.sum / rv.length else heart_rate
  ({ p with recent_values := rv
            current_bpm := some bpm
            last_update_time := some now }, bpm)

/-- Embedding of `HeartRateParser.get_bpm`. -/
def HeartRateParser.get_bpm (p : HeartRateParser) : Option Nat :=
  p.current_bpm

/-- Embedding of `HeartRateParser.is_stale` (hr_parser.py lines 65-78),
with the current time passed explicitly. -/
def HeartRateParser.is_stale (p : HeartRateParser) (now : ℚ) (timeout : ℚ) : Bool :=
  match p.last_update_time with
  | none => true
  | some t => decide (now - t > timeout)

/-- Embedding of `HeartRateParser.reset`. -/
def HeartRateParser.reset (p : HeartRateParser) : HeartRateParser :=
  { p with recent_values := [], current_bpm := none, last_update_time := none }

/-- Run a sequence of `update` calls, each with its submitted value and
call time. -/
def HeartRateParser.runUpdates (p : HeartRateParser) (calls : List (Nat × ℚ)) :
    HeartRateParser :=
  calls.foldl (fun q c => (q.update c.1 c.2).1) p

lemma lastWindow_length (k : Nat) (l : List Nat) :
    (lastWindow k l).length = min l.length k := by
  simp [lastWindow]
  omega

lemma dequeAppend_lastWindow (w : Nat) (hw : 0 < w) (l : List Nat) (x : Nat) :
    dequeAppend w (lastWindow w l) x = lastWindow w (l ++ [x]) := by
  rcases lt_or_le l.length w with h | h
  · have h0 : l.length - w = 0 := by omega
    have h1 : l.length + 1 - w = 0 := by omega
    simp [dequeAppend, lastWindow, h0, h1]
  · have hlen : (l.drop (l.length - w)).length = w := by
      simp; omega
    show (l.drop (l.length - w) ++ [x]).drop ((l.drop (l.length - w) ++ [x]).length - w)
        = (l ++ [x]).drop ((l ++ [x]).length - w)
    have h1 : (l.drop (l.length - w) ++ [x]).length - w = 1 := by
      simp [hlen]
    have h2 : (l ++ [x]).length - w = l.length + 1 - w := by simp
    rw [h1, h2,
        List.drop_append_of_le_length (by omega : 1 ≤ (l.drop (l.length - w)).length),
        List.drop_drop,
        List.drop_append_of_le_length (by omega : l.length + 1 - w ≤ l.length)]
    have h3 : l.length - w + 1 = l.length + 1 - w := by omega
    rw [h3]

lemma runUpdates_append (p : HeartRateParser) (calls : List (Nat × ℚ)) (c : Nat × ℚ) :
    HeartRateParser.runUpdates p (calls ++ [c]) =
      ((HeartRateParser.runUpdates p calls).update c.1 c.2).1 := by
  simp [HeartRateParser.runUpdates]

lemma runUpdates_window (w : Nat) (hw : 0 < w) (calls : List (Nat × ℚ)) :
    (HeartRateParser.runUpdates (HeartRateParser.init w) calls).smoothing_window = w ∧
    (HeartRateParser.runUpdates (HeartRateParser.init w) calls).recent_values
      = lastWindow w (calls.map Prod.fst) := by
  induction calls using List.reverseRecOn with
  | nil => simp [HeartRateParser.runUpdates, HeartRateParser.init, lastWindow]
  | append_singleton l c ih =>
      rw [runUpdates_append]
      refine ⟨ih.1, ?_⟩
      simp only [HeartRateParser.update, ih.1, ih.2]
      rw [dequeAppend_lastWindow w hw]
      simp

lemma runUpdates_current (w : Nat) (hw : 0 < w) (calls : List (Nat × ℚ))
    (h : calls ≠ []) :
    (HeartRateParser.runUpdates (HeartRateParser.init w) calls).current_bpm =
      some ((lastWindow w (calls.map Prod.fst)).sum /
        (lastWindow w (calls.map Prod.fst)).length) := by
  induction calls using List.reverseRecOn with
  | nil => exact absurd rfl h
  | append_singleton l c _ =>
      rw [runUpdates_append]
      obtain ⟨hsw, hrv⟩ := runUpdates_window w hw l
      have hlen : 0 < (lastWindow w (l.map Prod.fst ++ [c.1])).length := by
        rw [lastWindow_length]
        simp
        omega
      simp only [HeartRateParser.update, hsw, hrv, dequeAppend_lastWindow w hw,
        List.map_append, List.map_cons, List.map_nil]
      simp only [gt_iff_lt, hlen, if_pos]

/-- C2: for every sequence of `update(bpm)` calls, `current()` (i.e.
`get_bpm`) equals the truncating integer mean of the last `min (N, 5)`
submitted values, and the sample window is exactly the FIFO suffix of
length `min (N, 5)` of the submitted values (oldest evicted when full). -/
theorem hr_update_window_mean (calls : List (Nat × ℚ)) (h : calls ≠ []) :
    (HeartRateParser.runUpdates (HeartRateParser.init 5) calls).get_bpm =
      some ((lastWindow 5 (calls.map Prod.fst)).sum /
        (lastWindow 5 (calls.map Prod.fst)).length) ∧
    (HeartRateParser.runUpdates (HeartRateParser.init 5) calls).recent_values =
      lastWindow 5 (calls.map Prod.fst) ∧
    (lastWindow 5 (calls.map Prod.fst)).length = min (calls.map Prod.fst).length 5 :=
  ⟨runUpdates_current 5 (by omega) calls h,
   (runUpdates_window 5 (by omega) calls).2,
   lastWindow_length 5 (calls.map Prod.fst)⟩

/-- Witness for C2 at the concrete call sequence 72, 80: mean is 76. -/
theorem hr_update_window_mean_witness :
    (HeartRateParser.runUpdates (HeartRateParser.init 5) [(72, 0), (80, 1)]).get_bpm =
      some ((lastWindow 5 ([(72, (0 : ℚ)), (80, 1)].map Prod.fst)).sum /
        (lastWindow 5 ([(72, (0 : ℚ)), (80, 1)].map Prod.fst)).length) ∧
    (HeartRateParser.runUpdates (HeartRateParser.init 5) [(72, 0), (80, 1)]).recent_values =
      lastWindow 5 ([(72, (0 : ℚ)), (80, 1)].map Prod.fst) ∧
    (lastWindow 5 ([(72, (0 : ℚ)), (80, 1)].map Prod.fst)).length =
      min ([(72, (0 : ℚ)), (80, 1)].map Prod.fst).length 5 :=
  hr_update_window_mean [(72, 0), (80, 1)] (by decide)

/-- C9: `is_stale` is true when no sample was ever received; with a last
sample it is true exactly when the elapsed time strictly exceeds the
timeout; and once stale it stays stale at every later instant if no
further update occurs. -/
theorem hr_is_stale_spec :
    (∀ (p : HeartRateParser) (now timeout : ℚ),
        p.last_update_time = none → p.is_stale now timeout = true) ∧
    (∀ (p : HeartRateParser) (t now timeout : ℚ),
        p.last_update_time = some t →
        (p.is_stale now timeout = true ↔ now - t > timeout)) ∧
    (∀ (p : HeartRateParser) (t1 t2 timeout : ℚ),
        t1 ≤ t2 → p.is_stale t1 timeout = true → p.is_stale t2 timeout = true) := by
  refine ⟨?_, ?_, ?_⟩
  · intro p now timeout hnone
    simp [HeartRateParser.is_stale, hnone]
  · intro p t now timeout hsome
    simp [HeartRateParser.is_stale, hsome]
  · intro p t1 t2 timeout hle h1
    cases hl : p.last_update_time with
    | none => simp [HeartRateParser.is_stale, hl]
    | some t =>
        simp only [HeartRateParser.is_stale, hl, decide_eq_true_eq, gt_iff_lt] at h1 ⊢
        linarith

/-- Witness for C9: an empty parser is stale; a parser updated at time 0
is stale at time 6 with timeout 5 (since 6 - 0 > 5) and remains stale at
time 7. -/
theorem hr_is_stale_spec_witness :
    (HeartRateParser.init 5).is_stale 0 5 = true ∧
    (((HeartRateParser.init 5).update 72 0).1.is_stale 6 5 = true ↔ (6 : ℚ) - 0 > 5) ∧
    ((HeartRateParser.init 5).update 72 0).1.is_stale 7 5 = true :=
  ⟨hr_is_stale_spec.1 (HeartRateParser.init 5) 0 5 rfl,
   hr_is_stale_spec.2.1 ((HeartRateParser.init 5).update 72 0).1 0 6 5 rfl,
   hr_is_stale_spec.2.2 ((HeartRateParser.init 5).update 72 0).1 6 7 5 (by norm_num)
     ((hr_is_stale_spec.2.1 ((HeartRateParser.init 5).update 72 0).1 0 6 5 rfl).mpr
       (by norm_num))⟩

/-! ## Beat Animation Engine (src/heartrate/animation_controller.py) -/

/-- State of `AnimationController`. `pulse_duration` is assigned 0.3 in
`__init__` and never reassigned, so it is modelled as the constant
`pulse_duration` below; likewise `animation_smoothing` is the constant
`Config.ANIMATION_SMOOTHING`. -/
structure AnimationController where
  start_time : ℝ
  current_bpm : Option ℝ
  target_bpm : Option ℝ
  beat_scale : ℝ
  last_heartbeat_time : Option ℝ
  heartbeat_pulse_start : Option ℝ

/-- Pulse animation duration in seconds (animation_controller.py line 21). -/
def pulse_duration : ℝ := 0.3

/-- Fresh controller state, as built by `AnimationController.__init__` at
wall-clock time `now`. -/
def AnimationController.init (now : ℝ) : AnimationController :=
  { start_time := now
    current_bpm := none
    target_bpm := none
    beat_scale := 1
    last_heartbeat_time := none
    heartbeat_pulse_start := none }

/-- Embedding of `AnimationController.update_bpm` (lines 23-30). -/
def AnimationController.update_bpm (s : AnimationController) (bpm : Option ℝ) :
    AnimationController :=
  { s with target_bpm := bpm }

/-- Embedding of `AnimationController.trigger_heartbeat` (lines 32-39) at
wall-clock time `now`. -/
def AnimationController.trigger_heartbeat (s : AnimationController) (now : ℝ) :
    AnimationController :=
  { s with last_heartbeat_time := some now, heartbeat_pulse_start := some now }

/-- Python float modulo for a positive divisor: `a - b * floor (a / b)`. -/
noncomputable def fmod (a b : ℝ) : ℝ :=
  a - b * ⌊a / b⌋

/-- Event-pulse intensity curve (animation_controller.py lines 64-70):
sin-based rise for `progress < 0.3`, cos-based decay for `progress ≥ 0.3`. -/
noncomputable def eventPulse (amplitude progress : ℝ) : ℝ :=
  if progress < 0.3 then
    Real.sin (progress * Real.pi / 0.3) * amplitude
  else
    Real.cos ((progress - 0.3) / 0.7 * (Real.pi / 2)) * amplitude

/-- Scale returned while in event-pulse mode (line 72): `1.0 + pulse`. -/
noncomputable def eventScale (amplitude progress : ℝ) : ℝ :=
  1 + eventPulse amplitude progress

/-- BPM-periodic fallback of `get_beat_scale` (lines 78-109): per-call
exponential smoothing of `current_bpm` toward `target_bpm`, then a
sine-shaped pulse over the beat phase. -/
noncomputable def AnimationController.periodicScale (s : AnimationController)
    (current_time : ℝ) : AnimationController × ℝ :=
  let s1 :=
    match s.target_bpm with
    | none => s
    | some tb =>
        match s.current_bpm with
        | none => { s with current_bpm := some tb }
        | some cb =>
            { s with current_bpm := some (cb + (tb - cb) * Config.ANIMATION_SMOOTHING) }
  match s1.current_bpm with
  | none => ({ s1 with beat_scale := 1 }, 1)
  | some cb =>
      if cb ≤ 0 then ({ s1 with beat_scale := 1 }, 1)
      else
        let elapsed := current_time - s1.start_time
        let beat_interval := 60 / cb
        let phase := fmod elapsed beat_interval / beat_interval * (2 * Real.pi)
        let pulse :=
          if phase < Real.pi then
            Real.sin phase * Config.HEART_BEAT_SCALE_AMPLITUDE
          else
            Real.sin phase * Config.HEART_BEAT_SCALE_AMPLITUDE * 0.5
        ({ s1 with beat_scale := 1 + pulse }, 1 + pulse)

/-- Embedding of `AnimationController.get_beat_scale` (lines 41-109) with
the current time passed explicitly; returns the updated state and the
scale factor. -/
noncomputable def AnimationController.get_beat_scale (s : AnimationController)
    (current_time : ℝ) : AnimationController × ℝ :=
  match s.heartbeat_pulse_start with
  | some ps =>
      let pulse_elapsed := current_time - ps
      if pulse_elapsed < pulse_duration then
        let progress := pulse_elapsed / pulse_duration
        let pulse := eventPulse Config.HEART_BEAT_SCALE_AMPLITUDE progress
        ({ s with beat_scale := 1 + pulse }, 1 + pulse)
      else
        AnimationController.periodicScale { s with heartbeat_pulse_start := none }
          current_time
  | none => AnimationController.periodicScale s current_time

lemma eventScale_boundary (a : ℝ) : eventScale a 0.3 = 1 + a := by
  simp only [eventScale, eventPulse]
  rw [if_neg (by norm_num)]
  norm_num

lemma eventScale_tendsto_left (a : ℝ) :
    Filter.Tendsto (eventScale a) (nhdsWithin 0.3 (Set.Iio 0.3)) (nhds 1) := by
  have hg : Continuous fun p : ℝ => 1 + Real.sin (p * Real.pi / 0.3) * a := by
    continuity
  have hpi : (0.3 : ℝ) * Real.pi / 0.3 = Real.pi := by
    field_simp
  have hg3 : 1 + Real.sin ((0.3 : ℝ) * Real.pi / 0.3) * a = 1 := by
    rw [hpi]
    simp
  have ht : Filter.Tendsto (fun p : ℝ => 1 + Real.sin (p * Real.pi / 0.3) * a)
      (nhdsWithin 0.3 (Set.Iio 0.3)) (nhds 1) := by
    have h0 := (hg.tendsto 0.3).mono_left
      (nhdsWithin_le_nhds (s := Set.Iio (0.3 : ℝ)))
    rwa [hg3] at h0
  refine ht.congr' ?_
  filter_upwards [eventually_mem_nhdsWithin] with p hp
  have hlt : p < 0.3 := hp
  simp [eventScale, eventPulse, if_pos hlt]

/-- C1 counterexample: at the configured amplitude 0.3, the event-pulse
scale curve is NOT continuous at the progress = 0.3 boundary — the
sin-based rise tends to 1.0 from the left while the cos-based decay
starts at 1.0 + amplitude. -/
theorem event_pulse_discontinuous_at_boundary :
    ¬ ContinuousAt (eventScale Config.HEART_BEAT_SCALE_AMPLITUDE) 0.3 := by
  intro hc
  have h1 : Filter.Tendsto (eventScale Config.HEART_BEAT_SCALE_AMPLITUDE)
      (nhdsWithin 0.3 (Set.Iio 0.3))
      (nhds (eventScale Config.HEART_BEAT_SCALE_AMPLITUDE 0.3)) :=
    hc.tendsto.mono_left nhdsWithin_le_nhds
  have h3 := tendsto_nhds_unique h1
    (eventScale_tendsto_left Config.HEART_BEAT_SCALE_AMPLITUDE)
  rw [eventScale_boundary] at h3
  norm_num [Config.HEART_BEAT_SCALE_AMPLITUDE] at h3

/-- C1 amended: in event-pulse mode the scale at progress = 0 equals 1.0,
but at the progress = 0.3 boundary the curve jumps by the amplitude: the
rise sub-phase tends to 1.0 from the left while the decay sub-phase
starts at 1.0 + amplitude. -/
theorem event_pulse_zero_and_boundary_jump (a : ℝ) :
    eventScale a 0 = 1 ∧
    eventScale a 0.3 = 1 + a ∧
    Filter.Tendsto (eventScale a) (nhdsWithin 0.3 (Set.Iio 0.3)) (nhds 1) := by
  refine ⟨?_, eventScale_boundary a, eventScale_tendsto_left a⟩
  simp [eventScale, eventPulse]
  norm_num

lemma get_beat_scale_at_trigger_instant (s : AnimationController) (t0 : ℝ) :
    ((s.trigger_heartbeat t0).get_beat_scale t0).2 = 1 := by
  simp only [AnimationController.get_beat_scale, AnimationController.trigger_heartbeat]
  rw [if_pos (by norm_num [pulse_duration] : t0 - t0 < pulse_duration)]
  simp [eventPulse]
  norm_num

lemma eventPulse_pos (p : ℝ) (h0 : 0 < p) (h1 : p < 1) :
    0 < eventPulse Config.HEART_BEAT_SCALE_AMPLITUDE p := by
  have hpi := Real.pi_pos
  rw [eventPulse]
  by_cases hc : p < 0.3
  · rw [if_pos hc]
    have hs : 0 < Real.sin (p * Real.pi / 0.3) := by
      apply Real.sin_pos_of_pos_of_lt_pi
      · positivity
      · have : p * Real.pi / 0.3 = (p / 0.3) * Real.pi := by ring
        rw [this]
        nlinarith [div_lt_one (show (0:ℝ) < 0.3 by norm_num) |>.mpr hc]
    simp [Config.HEART_BEAT_SCALE_AMPLITUDE]
    positivity
  · rw [if_neg hc]
    push_neg at hc
    have hφ0 : 0 ≤ (p - 0.3) / 0.7 * (Real.pi / 2) := by
      have : 0 ≤ p - 0.3 := by linarith
      positivity
    have hφ1 : (p - 0.3) / 0.7 * (Real.pi / 2) < Real.pi / 2 := by
      have hlt : (p - 0.3) / 0.7 < 1 := by
        rw [div_lt_one (by norm_num : (0:ℝ) < 0.7)]
        linarith
      nlinarith
    have hcos : 0 < Real.cos ((p - 0.3) / 0.7 * (Real.pi / 2)) := by
      apply Real.cos_pos_of_mem_Ioo
      constructor
      · linarith
      · exact hφ1
    simp [Config.HEART_BEAT_SCALE_AMPLITUDE]
    positivity

/-- C7 counterexample: immediately after `trigger_event()` (elapsed time
zero) the scale is exactly 1.0, not strictly greater than 1.0, because
the rise curve starts at `sin 0 = 0`. -/
theorem trigger_immediate_scale_not_gt_one :
    ¬ (((AnimationController.init 0).trigger_heartbeat 0).get_beat_scale 0).2 > 1 := by
  rw [gt_iff_lt, get_beat_scale_at_trigger_instant]
  exact lt_irrefl 1

/-- C7 amended: after `trigger_event()` at time `t0`, querying at the
same instant returns exactly 1.0; querying at any strictly positive
elapsed time below `pulse_duration` returns a scale strictly greater
than 1.0; and querying once `pulse_duration` has elapsed follows the
BPM-periodic fallback with the pulse timestamp cleared. -/
theorem trigger_event_scale_behavior (s : AnimationController) (t0 t : ℝ) :
    ((s.trigger_heartbeat t0).get_beat_scale t0).2 = 1 ∧
    (t0 < t → t - t0 < pulse_duration →
      ((s.trigger_heartbeat t0).get_beat_scale t).2 > 1) ∧
    (pulse_duration ≤ t - t0 →
      (s.trigger_heartbeat t0).get_beat_scale t =
        AnimationController.periodicScale
          { s.trigger_heartbeat t0 with heartbeat_pulse_start := none } t) := by
  refine ⟨get_beat_scale_at_trigger_instant s t0, ?_, ?_⟩
  · intro hlt hdur
    simp only [AnimationController.get_beat_scale, AnimationController.trigger_heartbeat]
    rw [if_pos hdur]
    have hp0 : 0 < (t - t0) / pulse_duration := by
      have : 0 < t - t0 := by linarith
      rw [pulse_duration]
      positivity
    have hp1 : (t - t0) / pulse_duration < 1 := by
      rw [div_lt_one (by norm_num [pulse_duration])]
      exact hdur
    have := eventPulse_pos ((t - t0) / pulse_duration) hp0 hp1
    simpa using this
  · intro hge
    simp only [AnimationController.get_beat_scale, AnimationController.trigger_heartbeat]
    rw [if_neg (by linarith)]

/-- Witness for C7 at a fresh controller: trigger at time 0, query at
times 0, 0.15 and 0.5. -/
theorem trigger_event_scale_behavior_witness :
    (((AnimationController.init 0).trigger_heartbeat 0).get_beat_scale 0).2 = 1 ∧
    (((AnimationController.init 0).trigger_heartbeat 0).get_beat_scale 0.15).2 > 1 ∧
    ((AnimationController.init 0).trigger_heartbeat 0).get_beat_scale 0.5 =
      AnimationController.periodicScale
        { (AnimationController.init 0).trigger_heartbeat 0 with
            heartbeat_pulse_start := none } 0.5 :=
  ⟨(trigger_event_scale_behavior (AnimationController.init 0) 0 0).1,
   (trigger_event_scale_behavior (AnimationController.init 0) 0 0.15).2.1
     (by norm_num) (by norm_num [pulse_duration]),
   (trigger_event_scale_behavior (AnimationController.init 0) 0 0.5).2.2
     (by norm_num [pulse_duration])⟩

/-- Iterate `get_beat_scale` queries at the given sequence of times,
keeping only the evolving state. -/
noncomputable def AnimationController.queryIter (s : AnimationController)
    (ts : List ℝ) : AnimationController :=
  ts.foldl (fun q t => (q.get_beat_scale t).1) s

lemma periodic_step_frozen (s : AnimationController) (b t : ℝ)
    (hp : s.heartbeat_pulse_start = none) (ht : s.target_bpm = none)
    (hc : s.current_bpm = some b) :
    ((s.get_beat_scale t).1.heartbeat_pulse_start = none) ∧
    ((s.get_beat_scale t).1.target_bpm = none) ∧
    ((s.get_beat_scale t).1.current_bpm = some b) ∧
    ((s.get_beat_scale t).1.start_time = s.start_time) := by
  simp only [AnimationController.get_beat_scale, hp,
    AnimationController.periodicScale, ht, hc]
  by_cases hb : b ≤ 0
  · simp [hb]
  · simp [hb]

lemma queryIter_frozen (ts : List ℝ) :
    ∀ (s : AnimationController) (b : ℝ),
    s.heartbeat_pulse_start = none → s.target_bpm = none → s.current_bpm = some b →
    ((s.queryIter ts).heartbeat_pulse_start = none) ∧
    ((s.queryIter ts).target_bpm = none) ∧
    ((s.queryIter ts).current_bpm = some b) := by
  induction ts with
  | nil =>
      intro s b hp ht hc
      exact ⟨hp, ht, hc⟩
  | cons t ts ih =>
      intro s b hp ht hc
      obtain ⟨h1, h2, h3, _⟩ := periodic_step_frozen s b t hp ht hc
      simpa [AnimationController.queryIter] using ih ((s.get_beat_scale t).1) b h1 h2 h3

lemma periodicScale_start_time (s : AnimationController) (t : ℝ) :
    (s.periodicScale t).1.start_time = s.start_time := by
  rcases ht : s.target_bpm with _ | tb <;> rcases hc : s.current_bpm with _ | cb <;>
    simp only [AnimationController.periodicScale, ht, hc] <;>
    first
      | rfl
      | (split <;> rfl)

lemma get_beat_scale_start_time (s : AnimationController) (t : ℝ) :
    (s.get_beat_scale t).1.start_time = s.start_time := by
  rcases hp : s.heartbeat_pulse_start with _ | ps <;>
    simp only [AnimationController.get_beat_scale, hp]
  · exact periodicScale_start_time s t
  · split
    · rfl
    · exact periodicScale_start_time { s with heartbeat_pulse_start := none } t

lemma queryIter_start_time (ts : List ℝ) :
    ∀ s : AnimationController, (s.queryIter ts).start_time = s.start_time := by
  induction ts with
  | nil => intro s; rfl
  | cons t ts ih =>
      intro s
      have h := ih ((s.get_beat_scale t).1)
      simpa [AnimationController.queryIter, get_beat_scale_start_time] using h

/-- C6: after `update_bpm(None)`, the smoothed current BPM stays at its
last value across any sequence of periodic-mode queries (the smoothing
step is skipped while the target is absent), and a further query still
returns the BPM-periodic pulse computed from that frozen BPM rather
than decaying to the neutral scale 1.0. -/
theorem update_bpm_none_freezes_current (s : AnimationController) (b : ℝ)
    (ts : List ℝ) (t : ℝ)
    (hp : s.heartbeat_pulse_start = none)
    (hc : s.current_bpm = some b)
    (hb : 0 < b) :
    ((s.update_bpm none).queryIter ts).current_bpm = some b ∧
    (((s.update_bpm none).queryIter ts).get_beat_scale t).2 =
      1 + (if fmod (t - s.start_time) (60 / b) / (60 / b) * (2 * Real.pi) < Real.pi
           then Real.sin (fmod (t - s.start_time) (60 / b) / (60 / b) * (2 * Real.pi)) *
             Config.HEART_BEAT_SCALE_AMPLITUDE
           else Real.sin (fmod (t - s.start_time) (60 / b) / (60 / b) * (2 * Real.pi)) *
             Config.HEART_BEAT_SCALE_AMPLITUDE * 0.5) := by
  obtain ⟨h1, h2, h3⟩ := queryIter_frozen ts (s.update_bpm none) b
    (by simpa [AnimationController.update_bpm] using hp)
    (by simp [AnimationController.update_bpm])
    (by simpa [AnimationController.update_bpm] using hc)
  refine ⟨h3, ?_⟩
  have hstart : ((s.update_bpm none).queryIter ts).start_time = s.start_time := by
    rw [queryIter_start_time]
    rfl
  simp only [AnimationController.get_beat_scale, h1,
    AnimationController.periodicScale, h2, h3, hstart]
  rw [if_neg (by linarith : ¬ b ≤ 0)]

/-- Witness for C6: a controller with current BPM 60 and absent target,
queried at times 1 and 2 and then inspected at time 3. -/
theorem update_bpm_none_freezes_current_witness :
    (({ AnimationController.init 0 with
          current_bpm := some 60 }.update_bpm none).queryIter [1, 2]).current_bpm =
      some 60 ∧
    ((({ AnimationController.init 0 with
          current_bpm := some 60 }.update_bpm none).queryIter [1, 2]).get_beat_scale 3).2 =
      1 + (if fmod ((3 : ℝ) - ({ AnimationController.init 0 with
              current_bpm := some (60 : ℝ) }).start_time) (60 / 60) / (60 / 60) *
              (2 * Real.pi) < Real.pi
           then Real.sin (fmod ((3 : ℝ) - ({ AnimationController.init 0 with
              current_bpm := some (60 : ℝ) }).start_time) (60 / 60) / (60 / 60) *
              (2 * Real.pi)) * Config.HEART_BEAT_SCALE_AMPLITUDE
           else Real.sin (fmod ((3 : ℝ) - ({ AnimationController.init 0 with
              current_bpm := some (60 : ℝ) }).start_time) (60 / 60) / (60 / 60) *
              (2 * Real.pi)) * Config.HEART_BEAT_SCALE_AMPLITUDE * 0.5) :=
  update_bpm_none_freezes_current
    { AnimationController.init 0 with current_bpm := some 60 } 60 [1, 2] 3
    rfl rfl (by norm_num)

lemma fmod_nonneg_lt (a b : ℝ) (hb : 0 < b) : 0 ≤ fmod a b ∧ fmod a b < b := by
  constructor
  · have h := Int.floor_le (a / b)
    have : b * ⌊a / b⌋ ≤ a := by
      rw [mul_comm]
      exact (le_div_iff₀ hb).mp h
    simp [fmod]
    linarith
  · have h := Int.lt_floor_add_one (a / b)
    have : a < b * ⌊a / b⌋ + b := by
      have := (div_lt_iff₀ hb).mp h
      nlinarith
    simp [fmod]
    linarith

lemma sin_nonpos_of_pi_le (x : ℝ) (h1 : Real.pi ≤ x) (h2 : x ≤ 2 * Real.pi) :
    Real.sin x ≤ 0 := by
  have hs : Real.sin (x - Real.pi) = -Real.sin x := Real.sin_sub_pi x
  have hnn : 0 ≤ Real.sin (x - Real.pi) := by
    apply Real.sin_nonneg_of_nonneg_of_le_pi
    · linarith
    · linarith
  linarith [hs ▸ hnn]

lemma periodicScale_bounds (s : AnimationController) (t : ℝ) :
    0.85 ≤ (s.periodicScale t).2 ∧ (s.periodicScale t).2 ≤ 1.3 := by
  have hpi := Real.pi_pos
  rcases ht : s.target_bpm with _ | tb <;> rcases hc : s.current_bpm with _ | cb <;>
    simp only [AnimationController.periodicScale, ht, hc]
  · constructor <;> norm_num
  · by_cases hb : cb ≤ 0
    · rw [if_pos hb]
      constructor <;> norm_num
    · rw [if_neg hb]
      push_neg at hb
      have hbi : 0 < 60 / cb := by positivity
      obtain ⟨hm0, hm1⟩ := fmod_nonneg_lt (t - s.start_time) (60 / cb) hbi
      set m := fmod (t - s.start_time) (60 / cb) with hm
      have hph0 : 0 ≤ m / (60 / cb) * (2 * Real.pi) := by positivity
      have hph2 : m / (60 / cb) * (2 * Real.pi) < 2 * Real.pi := by
        have : m / (60 / cb) < 1 := (div_lt_one hbi).mpr hm1
        nlinarith
      set phase := m / (60 / cb) * (2 * Real.pi) with hph
      by_cases hcase : phase < Real.pi
      · rw [if_pos hcase]
        have hs0 : 0 ≤ Real.sin phase :=
          Real.sin_nonneg_of_nonneg_of_le_pi hph0 (le_of_lt hcase)
        have hs1 : Real.sin phase ≤ 1 := Real.sin_le_one phase
        simp only [Config.HEART_BEAT_SCALE_AMPLITUDE]
        constructor <;> nlinarith
      · rw [if_neg hcase]
        push_neg at hcase
        have hs0 : Real.sin phase ≤ 0 :=
          sin_nonpos_of_pi_le phase hcase (le_of_lt hph2)
        have hs1 : -1 ≤ Real.sin phase := Real.neg_one_le_sin phase
        simp only [Config.HEART_BEAT_SCALE_AMPLITUDE]
        constructor <;> nlinarith
  · by_cases hb : tb ≤ 0
    · rw [if_pos hb]
      constructor <;> norm_num
    · rw [if_neg hb]
      push_neg at hb
      have hbi : 0 < 60 / tb := by positivity
      obtain ⟨hm0, hm1⟩ := fmod_nonneg_lt (t - s.start_time) (60 / tb) hbi
      set m := fmod (t - s.start_time) (60 / tb) with hm
      have hph0 : 0 ≤ m / (60 / tb) * (2 * Real.pi) := by positivity
      have hph2 : m / (60 / tb) * (2 * Real.pi) < 2 * Real.pi := by
        have : m / (60 / tb) < 1 := (div_lt_one hbi).mpr hm1
        nlinarith
      set phase := m / (60 / tb) * (2 * Real.pi) with hph
      by_cases hcase : phase < Real.pi
      · rw [if_pos hcase]
        have hs0 : 0 ≤ Real.sin phase :=
          Real.sin_nonneg_of_nonneg_of_le_pi hph0 (le_of_lt hcase)
        have hs1 : Real.sin phase ≤ 1 := Real.sin_le_one phase
        simp only [Config.HEART_BEAT_SCALE_AMPLITUDE]
        constructor <;> nlinarith
      · rw [if_neg hcase]
        push_neg at hcase
        have hs0 : Real.sin phase ≤ 0 :=
          sin_nonpos_of_pi_le phase hcase (le_of_lt hph2)
        have hs1 : -1 ≤ Real.sin phase := Real.neg_one_le_sin phase
        simp only [Config.HEART_BEAT_SCALE_AMPLITUDE]
        constructor <;> nlinarith
  · by_cases hb : cb + (tb - cb) * Config.ANIMATION_SMOOTHING ≤ 0
    · rw [if_pos hb]
      constructor <;> norm_num
    · rw [if_neg hb]
      push_neg at hb
      set cb2 := cb + (tb - cb) * Config.ANIMATION_SMOOTHING with hcb2
      have hbi : 0 < 60 / cb2 := by positivity
      obtain ⟨hm0, hm1⟩ := fmod_nonneg_lt (t - s.start_time) (60 / cb2) hbi
      set m := fmod (t - s.start_time) (60 / cb2) with hm
      have hph0 : 0 ≤ m / (60 / cb2) * (2 * Real.pi) := by positivity
      have hph2 : m / (60 / cb2) * (2 * Real.pi) < 2 * Real.pi := by
        have : m / (60 / cb2) < 1 := (div_lt_one hbi).mpr hm1
        nlinarith
      set phase := m / (60 / cb2) * (2 * Real.pi) with hph
      by_cases hcase : phase < Real.pi
      · rw [if_pos hcase]
        have hs0 : 0 ≤ Real.sin phase :=
          Real.sin_nonneg_of_nonneg_of_le_pi hph0 (le_of_lt hcase)
        have hs1 : Real.sin phase ≤ 1 := Real.sin_le_one phase
        simp only [Config.HEART_BEAT_SCALE_AMPLITUDE]
        constructor <;> nlinarith
      · rw [if_neg hcase]
        push_neg at hcase
        have hs0 : Real.sin phase ≤ 0 :=
          sin_nonpos_of_pi_le phase hcase (le_of_lt hph2)
        have hs1 : -1 ≤ Real.sin phase := Real.neg_one_le_sin phase
        simp only [Config.HEART_BEAT_SCALE_AMPLITUDE]
        constructor <;> nlinarith

lemma eventPulse_mem_bounds (p : ℝ) (h0 : 0 ≤ p) (h1 : p < 1) :
    0 ≤ eventPulse Config.HEART_BEAT_SCALE_AMPLITUDE p ∧
    eventPulse Config.HEART_BEAT_SCALE_AMPLITUDE p ≤ 0.3 := by
  have hpi := Real.pi_pos
  rw [eventPulse]
  by_cases hc : p < 0.3
  · rw [if_pos hc]
    have harg0 : 0 ≤ p * Real.pi / 0.3 := by positivity
    have harg1 : p * Real.pi / 0.3 ≤ Real.pi := by
      have : p * Real.pi / 0.3 = (p / 0.3) * Real.pi := by ring
      rw [this]
      have hle : p / 0.3 ≤ 1 := by
        rw [div_le_one (by norm_num : (0:ℝ) < 0.3)]
        linarith
      nlinarith
    have hs0 : 0 ≤ Real.sin (p * Real.pi / 0.3) :=
      Real.sin_nonneg_of_nonneg_of_le_pi harg0 harg1
    have hs1 : Real.sin (p * Real.pi / 0.3) ≤ 1 := Real.sin_le_one _
    simp only [Config.HEART_BEAT_SCALE_AMPLITUDE]
    constructor <;> nlinarith
  · rw [if_neg hc]
    push_neg at hc
    have hφ0 : 0 ≤ (p - 0.3) / 0.7 * (Real.pi / 2) := by
      have : 0 ≤ p - 0.3 := by linarith
      positivity
    have hφ1 : (p - 0.3) / 0.7 * (Real.pi / 2) ≤ Real.pi / 2 := by
      have hle : (p - 0.3) / 0.7 ≤ 1 := by
        rw [div_le_one (by norm_num : (0:ℝ) < 0.7)]
        linarith
      nlinarith
    have hc0 : 0 ≤ Real.cos ((p - 0.3) / 0.7 * (Real.pi / 2)) := by
      apply Real.cos_nonneg_of_mem_Icc
      constructor
      · linarith
      · exact hφ1
    have hc1 : Real.cos ((p - 0.3) / 0.7 * (Real.pi / 2)) ≤ 1 := Real.cos_le_one _
    simp only [Config.HEART_BEAT_SCALE_AMPLITUDE]
    constructor <;> nlinarith

/-- C10 counterexample: the state reached by `trigger_event()` at time
0.045 is reachable from a fresh controller, yet querying it at instant 0
(before the pulse start) yields scale 0.7, outside [0.85, 1.3]. -/
theorem scale_interval_counterexample :
    (((AnimationController.init 0).trigger_heartbeat 0.045).get_beat_scale 0).2 < 0.85 := by
  simp only [AnimationController.get_beat_scale, AnimationController.trigger_heartbeat,
    AnimationController.init]
  rw [if_pos (by norm_num [pulse_duration] : (0 : ℝ) - 0.045 < pulse_duration)]
  have harg : ((0 : ℝ) - 0.045) / pulse_duration * Real.pi / 0.3 = -(Real.pi / 2) := by
    rw [pulse_duration]
    ring
  have hp : eventPulse Config.HEART_BEAT_SCALE_AMPLITUDE (((0 : ℝ) - 0.045) / pulse_duration)
      = -0.3 := by
    rw [eventPulse, if_pos (by norm_num [pulse_duration] : ((0 : ℝ) - 0.045) / pulse_duration < 0.3)]
    rw [harg]
    simp [Real.sin_pi_div_two, Config.HEART_BEAT_SCALE_AMPLITUDE]
  simp only [hp]
  norm_num

/-- C10 amended: for every state and every query instant that is not
earlier than the start of any active pulse, the returned scale lies in
[1 - amplitude/2, 1 + amplitude] = [0.85, 1.3] in both modes; and it is
exactly 1.0 when no BPM is known (current and target absent) and no
pulse is active. A query instant before an active pulse start escapes
the interval (see the counterexample). -/
theorem get_beat_scale_bounds (s : AnimationController) (t : ℝ)
    (hp : ∀ p, s.heartbeat_pulse_start = some p → p ≤ t) :
    0.85 ≤ (s.get_beat_scale t).2 ∧ (s.get_beat_scale t).2 ≤ 1.3 ∧
    (s.heartbeat_pulse_start = none → s.target_bpm = none → s.current_bpm = none →
      (s.get_beat_scale t).2 = 1) := by
  have hmain : 0.85 ≤ (s.get_beat_scale t).2 ∧ (s.get_beat_scale t).2 ≤ 1.3 := by
    rcases hps : s.heartbeat_pulse_start with _ | ps
    · simp only [AnimationController.get_beat_scale, hps]
      exact periodicScale_bounds s t
    · simp only [AnimationController.get_beat_scale, hps]
      by_cases hdur : t - ps < pulse_duration
      · rw [if_pos hdur]
        have he0 : 0 ≤ t - ps := by
          have := hp ps hps
          linarith
        have hpr0 : 0 ≤ (t - ps) / pulse_duration := by
          rw [pulse_duration]
          positivity
        have hpr1 : (t - ps) / pulse_duration < 1 := by
          rw [div_lt_one (by norm_num [pulse_duration])]
          exact hdur
        obtain ⟨hb0, hb1⟩ := eventPulse_mem_bounds ((t - ps) / pulse_duration) hpr0 hpr1
        constructor
        · simp only
          linarith
        · simp only
          linarith
      · rw [if_neg hdur]
        exact periodicScale_bounds { s with heartbeat_pulse_start := none } t
  refine ⟨hmain.1, hmain.2, ?_⟩
  intro h1 h2 h3
  simp [AnimationController.get_beat_scale, h1, AnimationController.periodicScale, h2, h3]

/-- Witness for C10 at a fresh controller queried at time 0: no pulse is
active, no BPM is known, and the scale is exactly 1 inside [0.85, 1.3]. -/
theorem get_beat_scale_bounds_witness :
    0.85 ≤ ((AnimationController.init 0).get_beat_scale 0).2 ∧
    ((AnimationController.init 0).get_beat_scale 0).2 ≤ 1.3 ∧
    ((AnimationController.init 0).get_beat_scale 0).2 = 1 :=
  ⟨(get_beat_scale_bounds (AnimationController.init 0) 0
      (fun p h => by simp [AnimationController.init] at h)).1,
   (get_beat_scale_bounds (AnimationController.init 0) 0
      (fun p h => by simp [AnimationController.init] at h)).2.1,
   (get_beat_scale_bounds (AnimationController.init 0) 0
      (fun p h => by simp [AnimationController.init] at h)).2.2 rfl rfl rfl⟩

/-! ## 3D math utilities (src/utils/math_utils.py) -/

/-- Vector of three reals, indexed like a numpy array of length 3. -/
abbrev Vec3 := Fin 3 → ℝ

/-- Real 3x3 matrix. -/
abbrev Mat3 := Matrix (Fin 3) (Fin 3) ℝ

/-- Euclidean norm of a 3-vector, as computed by `np.linalg.norm`. -/
noncomputable def norm3 (v : Vec3) : ℝ :=
  Real.sqrt (v 0 ^ 2 + v 1 ^ 2 + v 2 ^ 2)

/-- Embedding of `normalize_vector` (math_utils.py lines 7-12): the zero
vector is returned unchanged. -/
noncomputable def normalize_vector (v : Vec3) : Vec3 :=
  if norm3 v = 0 then v else fun i => v i / norm3 v

/-- Cross product of 3-vectors, as computed by `np.cross`. -/
def cross (a b : Vec3) : Vec3 :=
  ![a 1 * b 2 - a 2 * b 1, a 2 * b 0 - a 0 * b 2, a 0 * b 1 - a 1 * b 0]

/-- Embedding of `rotation_matrix_from_vectors` (math_utils.py lines
15-45): forward/up to an orthonormal basis with columns
[right, up, -forward]. -/
noncomputable def rotation_matrix_from_vectors (forward up : Vec3) : Mat3 :=
  let f := normalize_vector forward
  let u0 := normalize_vector up
  let r := normalize_vector (cross f u0)
  let u := normalize_vector (cross r f)
  Matrix.of ![![r 0, u 0, -(f 0)], ![r 1, u 1, -(f 1)], ![r 2, u 2, -(f 2)]]

/-- Embedding of `create_transform_matrix` (math_utils.py lines 48-72):
starts from `eye(4)`, sets the top-left 3x3 block to `rotation * scale`
and the translation column to `position`; bottom row stays [0,0,0,1]. -/
def create_transform_matrix (position : Vec3) (rotation : Mat3) (scale : ℝ) :
    Matrix (Fin 4) (Fin 4) ℝ :=
  Matrix.of fun i j =>
    if hi : (i : ℕ) < 3 then
      if hj : (j : ℕ) < 3 then rotation ⟨i, hi⟩ ⟨j, hj⟩ * scale
      else position ⟨i, hi⟩
    else if (j : ℕ) = 3 then 1 else 0

/-- Embedding of `calculate_chest_rotation` (math_utils.py lines 75-107). -/
noncomputable def calculate_chest_rotation
    (left_shoulder right_shoulder left_hip right_hip : Vec3) : Mat3 :=
  let shoulder_vec : Vec3 := fun i => right_shoulder i - left_shoulder i
  let hip_vec : Vec3 := fun i => right_hip i - left_hip i
  let torso_vec : Vec3 := fun i => (shoulder_vec i + hip_vec i) / 2
  let forward := normalize_vector ![-(torso_vec 1), torso_vec 0, 0]
  let up : Vec3 := ![0, 0, 1]
  rotation_matrix_from_vectors forward up

/-- Embedding of `calculate_chest_position` (math_utils.py lines
110-133): midpoint of the shoulders with `offset_z` subtracted on the
depth axis. -/
noncomputable def calculate_chest_position (left_shoulder right_shoulder : Vec3)
    (offset_z : ℝ) : Vec3 :=
  ![(left_shoulder 0 + right_shoulder 0) / 2,
    (left_shoulder 1 + right_shoulder 1) / 2,
    (left_shoulder 2 + right_shoulder 2) / 2 - offset_z]

/-- Negating the last column of a matrix, as done by `U[:, -1] *= -1`
(chest_tracker.py line 158). -/
def flipLastColumn (U : Mat3) : Mat3 :=
  Matrix.of fun i j => if j = 2 then -(U i j) else U i j

/-- SVD-based re-orthonormalization step of `track_chest`
(chest_tracker.py lines 155-159), parameterized by the factors `U`, `Vt`
returned by `np.linalg.svd` on the blended matrix: take `U * Vt`, and if
its determinant is negative, flip the last column of `U` and recompute. -/
noncomputable def svdCorrect (U Vt : Mat3) : Mat3 :=
  let rotation := U * Vt
  if rotation.det < 0 then flipLastColumn U * Vt else rotation

/-! ## Anchor Tracker (src/pose/chest_tracker.py) -/

/-- MediaPipe landmark: position components and a visibility score. -/
structure Landmark where
  x : ℝ
  y : ℝ
  z : ℝ
  visibility : ℝ

/-- MediaPipe pose landmark index for the left shoulder. -/
def ChestTracker.LEFT_SHOULDER : Nat := 11

/-- MediaPipe pose landmark index for the right shoulder. -/
def ChestTracker.RIGHT_SHOULDER : Nat := 12

/-- MediaPipe pose landmark index for the left hip. -/
def ChestTracker.LEFT_HIP : Nat := 23

/-- MediaPipe pose landmark index for the right hip. -/
def ChestTracker.RIGHT_HIP : Nat := 24

/-- Mutable state of `ChestTracker`: last known smoothed 3D position,
3x3 rotation, 2D position, and the smoothing factor (default 0.7). -/
structure ChestTracker where
  last_position : Option Vec3
  last_rotation : Option Mat3
  last_position_2d : Option (ℝ × ℝ)
  smoothing_factor : ℝ

/-- Fresh tracker state, as built by `ChestTracker.__init__` with the
default smoothing factor. -/
def ChestTracker.init : ChestTracker :=
  { last_position := none
    last_rotation := none
    last_position_2d := none
    smoothing_factor := 0.7 }

/-- Embedding of `ChestTracker.extract_landmark_2d` (chest_tracker.py
lines 36-61): out-of-range index or visibility below 0.5 yields absent. -/
noncomputable def ChestTracker.extract_landmark_2d (landmarks : List Landmark)
    (index : Nat) : Option (ℝ × ℝ) :=
  match landmarks.get? index with
  | none => none
  | some lm => if lm.visibility < 0.5 then none else some (lm.x, lm.y)

/-- Embedding of `ChestTracker.extract_landmark_3d` (chest_tracker.py
lines 63-88). -/
noncomputable def ChestTracker.extract_landmark_3d (landmarks : List Landmark)
    (index : Nat) : Option Vec3 :=
  match landmarks.get? index with
  | none => none
  | some lm => if lm.visibility < 0.5 then none else some ![lm.x, lm.y, lm.z]

/-- Embedding of `ChestTracker.track_chest` (chest_tracker.py lines
90-167). `np.linalg.svd` is an external library routine, so it is passed
as a parameter returning the factors `(U, Vt)` used by the source; the
claims quantify over it or constrain it by its documented guarantee
(orthogonality of the factors). Returns the updated tracker state and
the `(position, rotation)` pair. -/
noncomputable def ChestTracker.track_chest (svd : Mat3 → Mat3 × Mat3)
    (s : ChestTracker) (world_landmarks : List Landmark) :
    ChestTracker × (Option Vec3 × Option Mat3) :=
  let left_shoulder := ChestTracker.extract_landmark_3d world_landmarks ChestTracker.LEFT_SHOULDER
  let right_shoulder := ChestTracker.extract_landmark_3d world_landmarks ChestTracker.RIGHT_SHOULDER
  let left_hip := ChestTracker.extract_landmark_3d world_landmarks ChestTracker.LEFT_HIP
  let right_hip := ChestTracker.extract_landmark_3d world_landmarks ChestTracker.RIGHT_HIP
  match left_shoulder, right_shoulder with
  | some ls, some rs =>
      let new_position := calculate_chest_position ls rs Config.HEART_OFFSET_Z
      let position : Vec3 :=
        match s.last_position with
        | some lp => fun i => s.smoothing_factor * lp i + (1 - s.smoothing_factor) * new_position i
        | none => new_position
      let new_rotation : Mat3 :=
        match left_hip, right_hip with
        | some lh, some rh => calculate_chest_rotation ls rs lh rh
        | _, _ =>
            let shoulder_vec : Vec3 := fun i => rs i - ls i
            if norm3 shoulder_vec > 0 then
              rotation_matrix_from_vectors ![0, 0, -1] ![0, 1, 0]
            else
              (1 : Mat3)
      let rotation : Mat3 :=
        match s.last_rotation with
        | some lr =>
            let blended : Mat3 := Matrix.of fun i j =>
              s.smoothing_factor * lr i j + (1 - s.smoothing_factor) * new_rotation i j
            let uv := svd blended
            svdCorrect uv.1 uv.2
        | none => new_rotation
      ({ s with last_position := some position, last_rotation := some rotation },
        (some position, some rotation))
  | _, _ => (s, (s.last_position, s.last_rotation))

/-- Embedding of `ChestTracker.get_chest_position_2d` (chest_tracker.py
lines 169-233). Returns the updated tracker state and the smoothed 2D
pixel anchor. -/
noncomputable def ChestTracker.get_chest_position_2d (s : ChestTracker)
    (normalized_landmarks : List Landmark) (frame_width frame_height : ℝ) :
    ChestTracker × Option (ℝ × ℝ) :=
  let left_shoulder_2d := ChestTracker.extract_landmark_2d normalized_landmarks ChestTracker.LEFT_SHOULDER
  let right_shoulder_2d := ChestTracker.extract_landmark_2d normalized_landmarks ChestTracker.RIGHT_SHOULDER
  let left_hip_2d := ChestTracker.extract_landmark_2d normalized_landmarks ChestTracker.LEFT_HIP
  let right_hip_2d := ChestTracker.extract_landmark_2d normalized_landmarks ChestTracker.RIGHT_HIP
  match left_shoulder_2d, right_shoulder_2d with
  | some ls, some rs =>
      let chest_x0 := (ls.1 + rs.1) / 2 * frame_width
      let chest_y0 := (ls.2 + rs.2) / 2 * frame_height
      let chest_y1 :=
        match left_hip_2d, right_hip_2d with
        | some lh, some rh =>
            let hip_center_y := (lh.2 + rh.2) / 2 * frame_height
            let torso_height := hip_center_y - chest_y0
            chest_y0 + torso_height * 0.25
        | _, _ =>
            let shoulder_width := |(rs.1 - ls.1) * frame_width|
            chest_y0 + shoulder_width * 0.3
      let shoulder_width := |(rs.1 - ls.1) * frame_width|
      let chest_x1 := chest_x0 + shoulder_width * 0.15
      let chest_pos_2d : ℝ × ℝ :=
        match s.last_position_2d with
        | some lp =>
            (s.smoothing_factor * lp.1 + (1 - s.smoothing_factor) * chest_x1,
             s.smoothing_factor * lp.2 + (1 - s.smoothing_factor) * chest_y1)
        | none => (chest_x1, chest_y1)
      ({ s with last_position_2d := some chest_pos_2d }, some chest_pos_2d)
  | _, _ => (s, none)

/-- Embedding of `ChestTracker.get_transform_matrix` (chest_tracker.py
lines 235-257). -/
noncomputable def ChestTracker.get_transform_matrix (svd : Mat3 → Mat3 × Mat3)
    (s : ChestTracker) (world_landmarks : List Landmark) :
    ChestTracker × Option (Matrix (Fin 4) (Fin 4) ℝ) :=
  let r := ChestTracker.track_chest svd s world_landmarks
  match r.2 with
  | (some position, some rotation) =>
      (r.1, some (create_transform_matrix position rotation Config.HEART_SCALE))
  | _ => (r.1, none)

/-- Embedding of `ChestTracker.get_transform_matrix_2d` (chest_tracker.py
lines 259-326). The tan-based world coordinates derived from the NDC
values are dead code in the source: lines 313-315 overwrite them with
the fixed values (0, 0, -1) before use, so only the normalized/NDC
bindings are kept here. -/
noncomputable def ChestTracker.get_transform_matrix_2d (s : ChestTracker)
    (normalized_landmarks : List Landmark) (frame_width frame_height : ℝ) :
    ChestTracker × Option (Matrix (Fin 4) (Fin 4) ℝ) :=
  let r := s.get_chest_position_2d normalized_landmarks frame_width frame_height
  match r.2 with
  | none => (r.1, none)
  | some chest_pos_2d =>
      let norm_x := chest_pos_2d.1 / frame_width
      let norm_y := chest_pos_2d.2 / frame_height
      let ndc_x := norm_x * 2 - 1
      let ndc_y := 1 - norm_y * 2
      let world_x : ℝ := 0
      let world_y : ℝ := 0
      let world_z : ℝ := -1
      let position : Vec3 := ![world_x, world_y, world_z]
      let rotation : Mat3 := 1
      (r.1, some (create_transform_matrix position rotation Config.HEART_SCALE))

/-- C4: when either shoulder landmark is absent (visibility below 0.5 or
missing), `track_chest` returns the last known (position, rotation) pair
with its stored state unchanged, so a first-ever call with no prior
state returns absent for the position rather than a default; the 2D path
likewise returns absent with state unchanged. -/
theorem missing_shoulder_holds_last_state (svd : Mat3 → Mat3 × Mat3)
    (s s2 : ChestTracker) (wl nl : List Landmark) (w h : ℝ)
    (h3d : ChestTracker.extract_landmark_3d wl ChestTracker.LEFT_SHOULDER = none ∨
      ChestTracker.extract_landmark_3d wl ChestTracker.RIGHT_SHOULDER = none)
    (h2d : ChestTracker.extract_landmark_2d nl ChestTracker.LEFT_SHOULDER = none ∨
      ChestTracker.extract_landmark_2d nl ChestTracker.RIGHT_SHOULDER = none) :
    ChestTracker.track_chest svd s wl = (s, (s.last_position, s.last_rotation)) ∧
    (s.last_position = none → (ChestTracker.track_chest svd s wl).2.1 = none) ∧
    s2.get_chest_position_2d nl w h = (s2, none) := by
  have htrack : ChestTracker.track_chest svd s wl = (s, (s.last_position, s.last_rotation)) := by
    rcases h3d with hnone | hnone
    · simp [ChestTracker.track_chest, hnone]
    · rcases hl : ChestTracker.extract_landmark_3d wl ChestTracker.LEFT_SHOULDER with _ | v
      · simp [ChestTracker.track_chest, hl]
      · simp [ChestTracker.track_chest, hl, hnone]
  have h2 : s2.get_chest_position_2d nl w h = (s2, none) := by
    rcases h2d with hnone | hnone
    · simp [ChestTracker.get_chest_position_2d, hnone]
    · rcases hl : ChestTracker.extract_landmark_2d nl ChestTracker.LEFT_SHOULDER with _ | v
      · simp [ChestTracker.get_chest_position_2d, hl]
      · simp [ChestTracker.get_chest_position_2d, hl, hnone]
  refine ⟨htrack, ?_, h2⟩
  intro hlast
  rw [htrack]
  exact hlast

/-- Witness for C4: empty landmark lists (every index out of range, so
both shoulders absent) on fresh trackers. -/
theorem missing_shoulder_holds_last_state_witness :
    ChestTracker.track_chest (fun _ => (1, 1)) ChestTracker.init [] =
      (ChestTracker.init, (ChestTracker.init.last_position, ChestTracker.init.last_rotation)) ∧
    (ChestTracker.init.last_position = none →
      (ChestTracker.track_chest (fun _ => (1, 1)) ChestTracker.init []).2.1 = none) ∧
    ChestTracker.init.get_chest_position_2d [] 1000 1000 = (ChestTracker.init, none) :=
  missing_shoulder_holds_last_state (fun _ => (1, 1)) ChestTracker.init ChestTracker.init
    [] [] 1000 1000 (Or.inl rfl) (Or.inl rfl)

/-- Concrete normalized landmark list for the 2D-anchor example: indices
0-10 are padding with zero visibility, index 11 is the left shoulder at
(0.4, 0.3), index 12 the right shoulder at (0.6, 0.3); the list has no
entries at the hip indices 23 and 24, so the hips are absent. -/
def exampleLandmarks : List Landmark :=
  [⟨0, 0, 0, 0⟩, ⟨0, 0, 0, 0⟩, ⟨0, 0, 0, 0⟩, ⟨0, 0, 0, 0⟩, ⟨0, 0, 0, 0⟩,
   ⟨0, 0, 0, 0⟩, ⟨0, 0, 0, 0⟩, ⟨0, 0, 0, 0⟩, ⟨0, 0, 0, 0⟩, ⟨0, 0, 0, 0⟩,
   ⟨0, 0, 0, 0⟩, ⟨0.4, 0.3, 0, 1⟩, ⟨0.6, 0.3, 0, 1⟩]

/-- C8: on the landmark input with shoulders at (0.4, 0.3) and
(0.6, 0.3), hips absent, a 1000 x 1000 frame, and no prior smoothing
state, the 2D anchor is exactly (530, 360): midpoint (500, 300) shifted
right by 15% and down by 30% of the 200-pixel shoulder width. -/
theorem chest_position_2d_example :
    (ChestTracker.init.get_chest_position_2d exampleLandmarks 1000 1000).2 =
      some (530, 360) := by
  have h11 : ChestTracker.extract_landmark_2d exampleLandmarks ChestTracker.LEFT_SHOULDER =
      some (0.4, 0.3) := by
    rw [ChestTracker.extract_landmark_2d]
    norm_num [exampleLandmarks, ChestTracker.LEFT_SHOULDER]
  have h12 : ChestTracker.extract_landmark_2d exampleLandmarks ChestTracker.RIGHT_SHOULDER =
      some (0.6, 0.3) := by
    rw [ChestTracker.extract_landmark_2d]
    norm_num [exampleLandmarks, ChestTracker.RIGHT_SHOULDER]
  have h23 : ChestTracker.extract_landmark_2d exampleLandmarks ChestTracker.LEFT_HIP = none := by
    rw [ChestTracker.extract_landmark_2d]
    norm_num [exampleLandmarks, ChestTracker.LEFT_HIP]
  have h24 : ChestTracker.extract_landmark_2d exampleLandmarks ChestTracker.RIGHT_HIP = none := by
    rw [ChestTracker.extract_landmark_2d]
    norm_num [exampleLandmarks, ChestTracker.RIGHT_HIP]
  rw [ChestTracker.get_chest_position_2d, h11, h12, h23, h24]
  norm_num [ChestTracker.init, abs_of_nonneg]

/-- C3: whenever `get_transform_matrix_2d` succeeds (both shoulders
visible), the returned 4x4 matrix is the constant transform at world
position (0, 0, -1) with identity rotation scaled by `HEART_SCALE`,
independent of the tracked 2D anchor computed from the landmarks. -/
theorem transform_2d_ignores_anchor (s : ChestTracker) (nl : List Landmark)
    (w h : ℝ)
    (hs : (s.get_transform_matrix_2d nl w h).2.isSome = true) :
    (s.get_transform_matrix_2d nl w h).2 =
      some (create_transform_matrix ![0, 0, -1] 1 Config.HEART_SCALE) := by
  rw [ChestTracker.get_transform_matrix_2d] at hs ⊢
  rcases hcp : (s.get_chest_position_2d nl w h).2 with _ | p
  · rw [hcp] at hs
    simp at hs
  · simp

/-- Concrete landmark list for the C3 witness: shoulders at (0.2, 0.4)
and (0.8, 0.4) with visibility 0.8, hips absent. -/
def landmarksForTransform2d : List Landmark :=
  [⟨0, 0, 0, 0⟩, ⟨0, 0, 0, 0⟩, ⟨0, 0, 0, 0⟩, ⟨0, 0, 0, 0⟩, ⟨0, 0, 0, 0⟩,
   ⟨0, 0, 0, 0⟩, ⟨0, 0, 0, 0⟩, ⟨0, 0, 0, 0⟩, ⟨0, 0, 0, 0⟩, ⟨0, 0, 0, 0⟩,
   ⟨0, 0, 0, 0⟩, ⟨0.2, 0.4, 0, 0.8⟩, ⟨0.8, 0.4, 0, 0.8⟩]

/-- Witness for C3: a fresh tracker with both shoulders visible yields
the fixed transform. -/
theorem transform_2d_ignores_anchor_witness :
    (ChestTracker.init.get_transform_matrix_2d landmarksForTransform2d 640 480).2 =
      some (create_transform_matrix ![0, 0, -1] 1 Config.HEART_SCALE) :=
  transform_2d_ignores_anchor ChestTracker.init landmarksForTransform2d 640 480 (by
    rw [ChestTracker.get_transform_matrix_2d, ChestTracker.get_chest_position_2d]
    have h11 : ChestTracker.extract_landmark_2d landmarksForTransform2d
        ChestTracker.LEFT_SHOULDER = some (0.2, 0.4) := by
      rw [ChestTracker.extract_landmark_2d]
      norm_num [landmarksForTransform2d, ChestTracker.LEFT_SHOULDER]
    have h12 : ChestTracker.extract_landmark_2d landmarksForTransform2d
        ChestTracker.RIGHT_SHOULDER = some (0.8, 0.4) := by
      rw [ChestTracker.extract_landmark_2d]
      norm_num [landmarksForTransform2d, ChestTracker.RIGHT_SHOULDER]
    rw [h11, h12]
    simp)

/-- Diagonal sign matrix diag(1, 1, -1). -/
def signFlip3 : Mat3 := Matrix.diagonal ![1, 1, -1]

lemma flipLastColumn_eq_mul (U : Mat3) : flipLastColumn U = U * signFlip3 := by
  ext i j
  rw [flipLastColumn, signFlip3, Matrix.mul_diagonal]
  fin_cases j <;> simp

lemma signFlip3_transpose_mul : signFlip3.transpose * signFlip3 = 1 := by
  rw [signFlip3, Matrix.diagonal_transpose, Matrix.diagonal_mul_diagonal]
  have hd : (fun i => Matrix.vecCons (1:ℝ) ![1, -1] i * Matrix.vecCons (1:ℝ) ![1, -1] i)
      = fun _ => (1:ℝ) := by
    funext i
    fin_cases i <;> norm_num
  rw [hd, Matrix.diagonal_one]

lemma signFlip3_det : signFlip3.det = -1 := by
  rw [signFlip3, Matrix.det_diagonal, Fin.prod_univ_three]
  norm_num

lemma det_sq_one_of_orthogonal (M : Mat3) (hM : M.transpose * M = 1) :
    M.det * M.det = 1 := by
  have h := congrArg Matrix.det hM
  rwa [Matrix.det_mul, Matrix.det_transpose, Matrix.det_one] at h

/-- C5: for any factors `U`, `Vt` with orthonormal rows/columns (the
guarantee `np.linalg.svd` provides for the blended rotation matrix, even
a non-orthonormal one), the tracker's corrected rotation `svdCorrect U Vt`
satisfies `R.transpose * R = 1` and `det R = 1`, and it appears unscaled
as the 3x3 rotation block of the built placement transform at the unit
scale. -/
theorem svd_correct_proper_rotation (U Vt : Mat3) (p : Vec3)
    (hU : U.transpose * U = 1) (hV : Vt.transpose * Vt = 1) :
    (svdCorrect U Vt).transpose * svdCorrect U Vt = 1 ∧
    (svdCorrect U Vt).det = 1 ∧
    (∀ i j : Fin 3,
      create_transform_matrix p (svdCorrect U Vt) 1 i.castSucc j.castSucc =
        svdCorrect U Vt i j) := by
  have horth : ∀ A B : Mat3, A.transpose * A = 1 → B.transpose * B = 1 →
      (A * B).transpose * (A * B) = 1 := by
    intro A B hA hB
    rw [Matrix.transpose_mul]
    calc B.transpose * A.transpose * (A * B)
        = B.transpose * (A.transpose * A) * B := by
          rw [Matrix.mul_assoc, Matrix.mul_assoc, Matrix.mul_assoc]
      _ = B.transpose * B := by rw [hA, Matrix.mul_one]
      _ = 1 := hB
  have hmain : (svdCorrect U Vt).transpose * svdCorrect U Vt = 1 ∧
      (svdCorrect U Vt).det = 1 := by
    rw [svdCorrect]
    by_cases hdet : (U * Vt).det < 0
    · rw [if_pos hdet, flipLastColumn_eq_mul]
      have hUD : (U * signFlip3).transpose * (U * signFlip3) = 1 :=
        horth U signFlip3 hU signFlip3_transpose_mul
      refine ⟨horth (U * signFlip3) Vt hUD hV, ?_⟩
      have hsq : (U * Vt).det * (U * Vt).det = 1 :=
        det_sq_one_of_orthogonal (U * Vt) (horth U Vt hU hV)
      have hneg : (U * Vt).det = -1 := by nlinarith
      have : (U * signFlip3 * Vt).det = -((U * Vt).det) := by
        rw [Matrix.det_mul, Matrix.det_mul, signFlip3_det, Matrix.det_mul]
        ring
      rw [this, hneg]
      norm_num
    · rw [if_neg hdet]
      push_neg at hdet
      refine ⟨horth U Vt hU hV, ?_⟩
      have hsq : (U * Vt).det * (U * Vt).det = 1 :=
        det_sq_one_of_orthogonal (U * Vt) (horth U Vt hU hV)
      nlinarith
  refine ⟨hmain.1, hmain.2, ?_⟩
  intro i j
  have hi : ((i.castSucc : Fin 4) : ℕ) < 3 := by
    simp
  have hj : ((j.castSucc : Fin 4) : ℕ) < 3 := by
    simp
  rw [create_transform_matrix, Matrix.of_apply, dif_pos hi, dif_pos hj, mul_one]
  congr 1

/-- Witness for C5 at the orthogonal factors U = Vt = 1 and position 0. -/
theorem svd_correct_proper_rotation_witness :
    (svdCorrect 1 1).transpose * svdCorrect 1 1 = 1 ∧
    (svdCorrect 1 1).det = 1 ∧
    create_transform_matrix ![0, 0, 0] (svdCorrect 1 1) 1
        (0 : Fin 3).castSucc (0 : Fin 3).castSucc =
      svdCorrect 1 1 0 0 :=
  ⟨(svd_correct_proper_rotation 1 1 ![0, 0, 0] (by simp) (by simp)).1,
   (svd_correct_proper_rotation 1 1 ![0, 0, 0] (by simp) (by simp)).2.1,
   (svd_correct_proper_rotation 1 1 ![0, 0, 0] (by simp) (by simp)).2.2 0 0⟩
